import Mathlib

/-!
Shallow embedding of `src/actions/tweet/connector/twitterAPI.py`
(`TweetAPIConnector`), a connector that posts a tweet via the Twitter API.

The process environment is modelled as an association list of variable
names to values; `os.getenv` returns `none` when the name is absent.
Python truthiness of an optional string (`not x`) is `false` exactly when
the value is present and non-empty.

`load_dotenv` (python-dotenv, default `override=False`) sets each entry
of the `.env` file into the process environment only when the name is not
already present.

The vendor call `client.create_tweet` is modelled by an oracle value
`VendorCall` describing its outcome: a response object, a
`tweepy.TweepyException` with a message, or any other exception with a
message.  `connect` is embedded as a pure function from the connector,
the oracle and the input to a trace: the log lines emitted, the list of
texts passed to `create_tweet`, and the final result (`ok` or a raised
exception).
-/

/-- A process environment: association list of variable names to values. -/
abbrev Env : Type := List (String × String)

/-- `os.getenv name`: first binding of `name`, or `none` when absent. -/
def getenv (name : String) : Env → Option String
  | [] => none
  | (k, v) :: rest => if k == name then some v else getenv name rest

/-- Python truthiness of an optional string: `none` and `""` are falsy. -/
def truthy : Option String → Bool
  | none => false
  | some s => !(s == "")

/-- `load_dotenv` with the default `override=False`: each `.env` entry is
added to the environment only when its name is not already set. -/
def load_dotenv (dotfile : List (String × String)) (env : Env) : Env :=
  dotfile.foldl (fun e kv => if (getenv kv.1 e).isSome then e else e ++ [kv]) env

/-- The `tweepy.Client` handle: the four credential strings passed to it. -/
structure Client where
  consumer_key : String
  consumer_secret : String
  access_token : String
  access_token_secret : String
  deriving DecidableEq, Repr

/-- The connector object after successful construction. -/
structure TweetAPIConnector where
  client : Client
  deriving DecidableEq, Repr

/-- The four required credential variable names, in source order. -/
def requiredVars : List String :=
  ["TWITTER_API_KEY", "TWITTER_API_SECRET",
   "TWITTER_ACCESS_TOKEN", "TWITTER_ACCESS_TOKEN_SECRET"]

/-- The body of `TweetAPIConnector.__init__` after `load_dotenv`: read the
four credentials, raise `ValueError` naming the missing ones when any is
absent or empty, otherwise build the `tweepy.Client`. -/
def TweetAPIConnector.initCore (env : Env) : Except String TweetAPIConnector :=
  let consumer_key := getenv "TWITTER_API_KEY" env
  let consumer_secret := getenv "TWITTER_API_SECRET" env
  let access_token := getenv "TWITTER_ACCESS_TOKEN" env
  let access_token_secret := getenv "TWITTER_ACCESS_TOKEN_SECRET" env
  if !(truthy consumer_key && truthy consumer_secret &&
       truthy access_token && truthy access_token_secret) then
    let missing_vars : List String :=
      (if !truthy consumer_key then ["TWITTER_API_KEY"] else []) ++
      (if !truthy consumer_secret then ["TWITTER_API_SECRET"] else []) ++
      (if !truthy access_token then ["TWITTER_ACCESS_TOKEN"] else []) ++
      (if !truthy access_token_secret then ["TWITTER_ACCESS_TOKEN_SECRET"] else [])
    .error ("Missing required Twitter API credentials: " ++
      String.intercalate ", " missing_vars)
  else
    .ok ⟨⟨consumer_key.getD "", consumer_secret.getD "",
          access_token.getD "", access_token_secret.getD ""⟩⟩

/-- Full `__init__`: `load_dotenv()` first (which may extend the process
environment), then validation and client construction on the updated
environment.  Returns the environment after construction together with
the construction outcome. -/
def TweetAPIConnector.init (dotfile : List (String × String)) (env : Env) :
    Env × Except String TweetAPIConnector :=
  let envAfter := load_dotenv dotfile env
  (envAfter, TweetAPIConnector.initCore envAfter)

/-- `TweetInput` (from `actions.tweet.interface`, used as
`output_interface.action` in the source): the single text field. -/
structure TweetInput where
  action : String
  deriving DecidableEq, Repr

/-- The `tweepy` response object: `response.data` is `None` or a dict. -/
structure Response where
  data : Option (List (String × String))
  deriving DecidableEq, Repr

/-- A raised Python exception, as caught by the two handlers in
`connect`: a `tweepy.TweepyException` or any other exception. -/
inductive PyExn where
  | tweepy (msg : String)
  | generic (msg : String)
  deriving DecidableEq, Repr

/-- `str(e)` for a modelled exception. -/
def PyExn.msg : PyExn → String
  | .tweepy m => m
  | .generic m => m

/-- Outcome of the single `client.create_tweet` vendor call. -/
inductive VendorCall where
  | success (resp : Response)
  | tweepyExn (msg : String)
  | otherExn (msg : String)
  deriving DecidableEq, Repr

/-- A log line emitted through `logging.info` / `logging.error`. -/
inductive LogEntry where
  | info (msg : String)
  | error (msg : String)
  deriving DecidableEq, Repr

/-- `response.data["id"]`: subscripting `None` raises `TypeError`, a
missing key raises `KeyError` (both non-tweepy exceptions). -/
def dictGetId (data : Option (List (String × String))) : Except PyExn String :=
  match data with
  | none => .error (.generic "\x27NoneType\x27 object is not subscriptable")
  | some kvs =>
    match kvs.find? (fun p => p.1 == "id") with
    | some p => .ok p.2
    | none => .error (.generic "\x27id\x27")

/-- The first log line of `connect`:
`logging.info(f"SendThisToTwitterAPI: {tweet_to_make}")` where
`tweet_to_make = {"action": output_interface.action}`. -/
def tweetLogLine (output_interface : TweetInput) : LogEntry :=
  .info ("SendThisToTwitterAPI: \x7b\x27action\x27: \x27" ++
    output_interface.action ++ "\x27\x7d")

/-- The observable trace of one `connect` invocation. -/
structure SendTrace where
  logs : List LogEntry
  calls : List String
  result : Except PyExn Unit
  deriving Repr

/-- `TweetAPIConnector.connect`: log the outgoing tweet, make the single
`create_tweet` call with `output_interface.action`, on success read the
id from the response and log the public URL; a `tweepy.TweepyException`
is logged on the vendor-error path and re-raised, any other exception
(including a failure to read the id) is logged on the generic-error path
and re-raised. -/
def TweetAPIConnector.connect (self : TweetAPIConnector) (vendor : VendorCall)
    (output_interface : TweetInput) : SendTrace :=
  let head := tweetLogLine output_interface
  match vendor with
  | .tweepyExn m =>
    { logs := [head, .error ("Twitter API error while sending tweet: " ++ m)],
      calls := [output_interface.action],
      result := .error (.tweepy m) }
  | .otherExn m =>
    { logs := [head, .error ("Unexpected error while sending tweet: " ++ m)],
      calls := [output_interface.action],
      result := .error (.generic m) }
  | .success resp =>
    match dictGetId resp.data with
    | .ok tweet_id =>
      let tweet_url := "https://twitter.com/user/status/" ++ tweet_id
      { logs := [head, .info ("Tweet sent successfully! URL: " ++ tweet_url)],
        calls := [output_interface.action],
        result := .ok () }
    | .error e =>
      { logs := [head, .error ("Unexpected error while sending tweet: " ++ e.msg)],
        calls := [output_interface.action],
        result := .error e }

/-! ## Construction theorems -/

/-- C1: whenever any of the four required credentials is missing or empty
in the environment, construction fails with an error whose message lists
exactly the names of the missing/empty credentials (in source order) and
no others. -/
theorem initCore_error_lists_exactly_missing (env : Env)
    (h : ∃ n ∈ requiredVars, truthy (getenv n env) = false) :
    TweetAPIConnector.initCore env =
      .error ("Missing required Twitter API credentials: " ++
        String.intercalate ", "
          (requiredVars.filter (fun n => !truthy (getenv n env)))) := by
  rcases h with ⟨n, hn, hf⟩
  have hmem : n = "TWITTER_API_KEY" ∨ n = "TWITTER_API_SECRET" ∨
      n = "TWITTER_ACCESS_TOKEN" ∨ n = "TWITTER_ACCESS_TOKEN_SECRET" := by
    simpa [requiredVars] using hn
  rcases hmem with rfl | rfl | rfl | rfl <;>
  cases h1 : truthy (getenv "TWITTER_API_KEY" env) <;>
  cases h2 : truthy (getenv "TWITTER_API_SECRET" env) <;>
  cases h3 : truthy (getenv "TWITTER_ACCESS_TOKEN" env) <;>
  cases h4 : truthy (getenv "TWITTER_ACCESS_TOKEN_SECRET" env) <;>
    simp_all [TweetAPIConnector.initCore, requiredVars, List.filter]

/-- C1 witness: with only `TWITTER_ACCESS_TOKEN` absent, the error
message names exactly `TWITTER_ACCESS_TOKEN`. -/
theorem initCore_error_lists_exactly_missing_witness :
    TweetAPIConnector.initCore
        [("TWITTER_API_KEY", "k"), ("TWITTER_API_SECRET", "s"),
         ("TWITTER_ACCESS_TOKEN_SECRET", "ts")] =
      .error "Missing required Twitter API credentials: TWITTER_ACCESS_TOKEN" :=
  (initCore_error_lists_exactly_missing
    [("TWITTER_API_KEY", "k"), ("TWITTER_API_SECRET", "s"),
     ("TWITTER_ACCESS_TOKEN_SECRET", "ts")]
    ⟨"TWITTER_ACCESS_TOKEN", by decide, by decide⟩).trans (by rfl)

/-- C5: with all four credentials present and non-empty, construction
succeeds and stores a client holding exactly those four credential
strings; the embedded construction is a pure function, so no I/O (in
particular no network call) happens. -/
theorem initCore_ok_of_all_present (env : Env) (ck cs tok toks : String)
    (h1 : getenv "TWITTER_API_KEY" env = some ck) (h1e : ck ≠ "")
    (h2 : getenv "TWITTER_API_SECRET" env = some cs) (h2e : cs ≠ "")
    (h3 : getenv "TWITTER_ACCESS_TOKEN" env = some tok) (h3e : tok ≠ "")
    (h4 : getenv "TWITTER_ACCESS_TOKEN_SECRET" env = some toks) (h4e : toks ≠ "") :
    TweetAPIConnector.initCore env = .ok ⟨⟨ck, cs, tok, toks⟩⟩ := by
  simp [TweetAPIConnector.initCore, h1, h2, h3, h4, truthy, h1e, h2e, h3e, h4e]

/-- C5 witness: a concrete fully-populated environment constructs a
client holding the four values. -/
theorem initCore_ok_of_all_present_witness :
    TweetAPIConnector.initCore
        [("TWITTER_API_KEY", "k"), ("TWITTER_API_SECRET", "s"),
         ("TWITTER_ACCESS_TOKEN", "t"), ("TWITTER_ACCESS_TOKEN_SECRET", "ts")] =
      .ok ⟨⟨"k", "s", "t", "ts"⟩⟩ :=
  initCore_ok_of_all_present
    [("TWITTER_API_KEY", "k"), ("TWITTER_API_SECRET", "s"),
     ("TWITTER_ACCESS_TOKEN", "t"), ("TWITTER_ACCESS_TOKEN_SECRET", "ts")]
    "k" "s" "t" "ts"
    (by decide) (by decide) (by decide) (by decide)
    (by decide) (by decide) (by decide) (by decide)

/-- C6: a connector (hence a vendor client) is only ever produced when
all four credentials are present and non-empty, and the stored client
holds exactly the environment values; on failure no client exists. -/
theorem initCore_ok_implies_all_present (env : Env) (c : TweetAPIConnector)
    (h : TweetAPIConnector.initCore env = .ok c) :
    ∀ n ∈ requiredVars, truthy (getenv n env) = true := by
  intro n hn
  have hmem : n = "TWITTER_API_KEY" ∨ n = "TWITTER_API_SECRET" ∨
      n = "TWITTER_ACCESS_TOKEN" ∨ n = "TWITTER_ACCESS_TOKEN_SECRET" := by
    simpa [requiredVars] using hn
  rcases hmem with rfl | rfl | rfl | rfl <;>
  cases h1 : truthy (getenv "TWITTER_API_KEY" env) <;>
  cases h2 : truthy (getenv "TWITTER_API_SECRET" env) <;>
  cases h3 : truthy (getenv "TWITTER_ACCESS_TOKEN" env) <;>
  cases h4 : truthy (getenv "TWITTER_ACCESS_TOKEN_SECRET" env) <;>
    simp_all [TweetAPIConnector.initCore]

/-- C6 witness: an environment with an empty access token yields no
connector, and the fully-populated one satisfies the conclusion. -/
theorem initCore_ok_implies_all_present_witness :
    truthy (getenv "TWITTER_ACCESS_TOKEN"
      [("TWITTER_API_KEY", "k"), ("TWITTER_API_SECRET", "s"),
       ("TWITTER_ACCESS_TOKEN", "t"), ("TWITTER_ACCESS_TOKEN_SECRET", "ts")]) = true :=
  initCore_ok_implies_all_present
    [("TWITTER_API_KEY", "k"), ("TWITTER_API_SECRET", "s"),
     ("TWITTER_ACCESS_TOKEN", "t"), ("TWITTER_ACCESS_TOKEN_SECRET", "ts")]
    ⟨⟨"k", "s", "t", "ts"⟩⟩ rfl "TWITTER_ACCESS_TOKEN" (by decide)

/-! ## Send-operation theorems -/

/-- Helper: `dictGetId` only ever fails with a generic (non-tweepy)
exception. -/
theorem dictGetId_error_generic (data : Option (List (String × String)))
    (e : PyExn) (h : dictGetId data = .error e) : ∃ m, e = .generic m := by
  unfold dictGetId at h
  cases data with
  | none => exact ⟨_, (Except.error.inj h).symm⟩
  | some kvs =>
    cases hf : kvs.find? (fun p => p.1 == "id") with
    | some p =>
      simp only [hf] at h
      exact absurd h (by simp)
    | none =>
      simp only [hf] at h
      exact ⟨_, (Except.error.inj h).symm⟩

/-- C2: on a successful vendor response whose data yields post id `tid`,
`connect` logs an info line whose URL is the fixed public prefix followed
by `/status/` and the returned id (so for id "123" it ends in
`/status/123`). -/
theorem connect_success_logs_url (self : TweetAPIConnector)
    (output_interface : TweetInput) (resp : Response) (tid : String)
    (h : dictGetId resp.data = .ok tid) :
    (self.connect (.success resp) output_interface).logs =
      [tweetLogLine output_interface,
       .info ("Tweet sent successfully! URL: " ++
         ("https://twitter.com/user/status/" ++ tid))] ∧
    ∃ pre, "https://twitter.com/user/status/" ++ tid = pre ++ ("/status/" ++ tid) := by
  constructor
  · simp [TweetAPIConnector.connect, h]
  · refine ⟨"https://twitter.com/user", ?_⟩
    rw [← String.append_assoc]
    have hpre : "https://twitter.com/user" ++ "/status/" =
        "https://twitter.com/user/status/" := rfl
    rw [hpre]

/-- C2 witness: a vendor response with post id "123" yields the logged
URL `https://twitter.com/user/status/123`. -/
theorem connect_success_logs_url_witness :
    (TweetAPIConnector.connect ⟨⟨"k", "s", "t", "ts"⟩⟩
        (.success ⟨some [("id", "123")]⟩) ⟨"hello"⟩).logs =
      [tweetLogLine ⟨"hello"⟩,
       .info ("Tweet sent successfully! URL: " ++
         ("https://twitter.com/user/status/" ++ "123"))] ∧
    ∃ pre, "https://twitter.com/user/status/" ++ "123" = pre ++ ("/status/" ++ "123") :=
  connect_success_logs_url ⟨⟨"k", "s", "t", "ts"⟩⟩ ⟨"hello"⟩
    ⟨some [("id", "123")]⟩ "123" rfl

/-- C3: when the vendor call raises `tweepy.TweepyException` with message
`m`, `connect` logs an error line containing `m` and re-raises the very
same exception (same kind, same message). -/
theorem connect_tweepy_exn_logged_and_reraised (self : TweetAPIConnector)
    (output_interface : TweetInput) (m : String) :
    (self.connect (.tweepyExn m) output_interface).logs =
      [tweetLogLine output_interface,
       .error ("Twitter API error while sending tweet: " ++ m)] ∧
    (self.connect (.tweepyExn m) output_interface).result = .error (.tweepy m) :=
  ⟨rfl, rfl⟩

/-- C4: any non-tweepy exception — whether raised by the vendor call or
while extracting the post id from the response — is logged on the
generic-error path and re-raised unchanged; and the result is `ok` (a
bare return) exactly when the vendor call succeeded and the id was
extracted, so a failure is never swallowed. -/
theorem connect_generic_exn_logged_and_reraised (self : TweetAPIConnector)
    (output_interface : TweetInput) :
    (∀ m, (self.connect (.otherExn m) output_interface).logs =
        [tweetLogLine output_interface,
         .error ("Unexpected error while sending tweet: " ++ m)] ∧
      (self.connect (.otherExn m) output_interface).result = .error (.generic m)) ∧
    (∀ resp e, dictGetId resp.data = .error e →
      (self.connect (.success resp) output_interface).logs =
        [tweetLogLine output_interface,
         .error ("Unexpected error while sending tweet: " ++ e.msg)] ∧
      (self.connect (.success resp) output_interface).result = .error e) ∧
    (∀ vendor, (self.connect vendor output_interface).result = .ok () ↔
      ∃ resp tid, vendor = .success resp ∧ dictGetId resp.data = .ok tid) := by
  refine ⟨fun m => ⟨rfl, rfl⟩, fun resp e h => ?_, fun vendor => ?_⟩
  · constructor <;> simp [TweetAPIConnector.connect, h]
  · cases vendor with
    | tweepyExn m => simp [TweetAPIConnector.connect]
    | otherExn m => simp [TweetAPIConnector.connect]
    | success resp =>
      cases hd : dictGetId resp.data with
      | ok tid =>
        constructor
        · intro _; exact ⟨resp, tid, rfl, hd⟩
        · intro _; simp [TweetAPIConnector.connect, hd]
      | error e =>
        constructor
        · intro hok
          simp [TweetAPIConnector.connect, hd] at hok
        · rintro ⟨resp2, tid, heq, hok⟩
          cases heq
          rw [hd] at hok
          exact absurd hok (by simp)

/-- C4 witness: a response with no "id" key produces a `KeyError`-style
generic exception that is re-raised. -/
theorem connect_generic_exn_logged_and_reraised_witness :
    (TweetAPIConnector.connect ⟨⟨"k", "s", "t", "ts"⟩⟩
        (.success ⟨some [("text", "hello")]⟩) ⟨"hello"⟩).result =
      .error (.generic "\x27id\x27") :=
  ((connect_generic_exn_logged_and_reraised ⟨⟨"k", "s", "t", "ts"⟩⟩ ⟨"hello"⟩).2.1
    ⟨some [("text", "hello")]⟩ (.generic "\x27id\x27") rfl).2

/-- C7: every `connect` invocation passes exactly the input's single text
field to `create_tweet`, exactly once — never a second attempt regardless
of outcome. -/
theorem connect_single_call (self : TweetAPIConnector) (vendor : VendorCall)
    (output_interface : TweetInput) :
    (self.connect vendor output_interface).calls = [output_interface.action] ∧
    (self.connect vendor output_interface).calls.length ≤ 1 := by
  cases vendor with
  | success resp =>
    cases hd : dictGetId resp.data <;>
      constructor <;>
        simp [TweetAPIConnector.connect, hd]
  | tweepyExn m => exact ⟨rfl, by simp [TweetAPIConnector.connect]⟩
  | otherExn m => exact ⟨rfl, by simp [TweetAPIConnector.connect]⟩

/-- C10: when the vendor call succeeds but the id cannot be read from the
response (missing "id" key or non-indexable data), `connect` raises a
generic (non-tweepy) exception via the generic-error path, logs the
generic error line, and logs no success-URL line. -/
theorem connect_missing_id_generic_path (self : TweetAPIConnector)
    (output_interface : TweetInput) (resp : Response) (e : PyExn)
    (h : dictGetId resp.data = .error e) :
    (∃ m, e = .generic m) ∧
    (self.connect (.success resp) output_interface).result = .error e ∧
    (self.connect (.success resp) output_interface).logs =
      [tweetLogLine output_interface,
       .error ("Unexpected error while sending tweet: " ++ e.msg)] ∧
    ∀ u, LogEntry.info ("Tweet sent successfully! URL: " ++ u) ∉
      (self.connect (.success resp) output_interface).logs := by
  have hlogs : (self.connect (.success resp) output_interface).logs =
      [tweetLogLine output_interface,
       .error ("Unexpected error while sending tweet: " ++ e.msg)] := by
    simp [TweetAPIConnector.connect, h]
  refine ⟨dictGetId_error_generic resp.data e h, ?_, hlogs, ?_⟩
  · simp [TweetAPIConnector.connect, h]
  · intro u hu
    rw [hlogs] at hu
    rcases List.mem_cons.mp hu with heq | hu2
    · have hchar := congrArg (fun l => match l with
        | LogEntry.info s => s.data.head?
        | LogEntry.error s => s.data.head?) heq
      simp [tweetLogLine, String.data_append] at hchar
    · rcases List.mem_cons.mp hu2 with heq | hu3
      · exact absurd heq (by simp)
      · exact absurd hu3 (by simp)

/-- C10 witness: a response whose data is an empty dict takes the
generic-error path with a `KeyError` and returns an error. -/
theorem connect_missing_id_generic_path_witness :
    (TweetAPIConnector.connect ⟨⟨"k", "s", "t", "ts"⟩⟩
        (.success ⟨some []⟩) ⟨"hi"⟩).result = .error (.generic "\x27id\x27") ∧
    (TweetAPIConnector.connect ⟨⟨"k", "s", "t", "ts"⟩⟩
        (.success ⟨some []⟩) ⟨"hi"⟩).logs =
      [tweetLogLine ⟨"hi"⟩,
       .error ("Unexpected error while sending tweet: " ++
         (PyExn.generic "\x27id\x27").msg)] :=
  ⟨(connect_missing_id_generic_path ⟨⟨"k", "s", "t", "ts"⟩⟩ ⟨"hi"⟩
      ⟨some []⟩ (.generic "\x27id\x27") rfl).2.1,
   (connect_missing_id_generic_path ⟨⟨"k", "s", "t", "ts"⟩⟩ ⟨"hi"⟩
      ⟨some []⟩ (.generic "\x27id\x27") rfl).2.2.1⟩

/-! ## Credential-confidentiality and frame theorems -/

/-- C8: no credential value reaches the logs.  The log text of `connect`
is the same for any two connectors (which differ only in the stored
credentials), and construction, which emits no log at all, produces an
outcome whose error text depends only on which credentials are present —
two environments with the same presence/emptiness pattern either yield
the identical error or both succeed. -/
theorem logs_independent_of_credentials :
    (∀ (s1 s2 : TweetAPIConnector) (vendor : VendorCall) (i : TweetInput),
      (s1.connect vendor i).logs = (s2.connect vendor i).logs) ∧
    (∀ env1 env2 : Env,
      (∀ n ∈ requiredVars, truthy (getenv n env1) = truthy (getenv n env2)) →
      TweetAPIConnector.initCore env1 = TweetAPIConnector.initCore env2 ∨
      ∃ c1 c2, TweetAPIConnector.initCore env1 = .ok c1 ∧
               TweetAPIConnector.initCore env2 = .ok c2) := by
  constructor
  · intro s1 s2 vendor i
    rfl
  · intro env1 env2 hpat
    have e1 := hpat "TWITTER_API_KEY" (by simp [requiredVars])
    have e2 := hpat "TWITTER_API_SECRET" (by simp [requiredVars])
    have e3 := hpat "TWITTER_ACCESS_TOKEN" (by simp [requiredVars])
    have e4 := hpat "TWITTER_ACCESS_TOKEN_SECRET" (by simp [requiredVars])
    cases h1 : truthy (getenv "TWITTER_API_KEY" env1) <;>
    cases h2 : truthy (getenv "TWITTER_API_SECRET" env1) <;>
    cases h3 : truthy (getenv "TWITTER_ACCESS_TOKEN" env1) <;>
    cases h4 : truthy (getenv "TWITTER_ACCESS_TOKEN_SECRET" env1) <;>
      [skip; skip; skip; skip; skip; skip; skip; skip;
       skip; skip; skip; skip; skip; skip; skip; exact
        Or.inr ⟨⟨⟨(getenv "TWITTER_API_KEY" env1).getD "",
                  (getenv "TWITTER_API_SECRET" env1).getD "",
                  (getenv "TWITTER_ACCESS_TOKEN" env1).getD "",
                  (getenv "TWITTER_ACCESS_TOKEN_SECRET" env1).getD ""⟩⟩,
                ⟨⟨(getenv "TWITTER_API_KEY" env2).getD "",
                  (getenv "TWITTER_API_SECRET" env2).getD "",
                  (getenv "TWITTER_ACCESS_TOKEN" env2).getD "",
                  (getenv "TWITTER_ACCESS_TOKEN_SECRET" env2).getD ""⟩⟩,
                by simp only [TweetAPIConnector.initCore, h1, h2, h3, h4]; rfl,
                by simp only [TweetAPIConnector.initCore, e1.symm.trans h1,
                              e2.symm.trans h2, e3.symm.trans h3,
                              e4.symm.trans h4]; rfl⟩] <;>
      exact Or.inl (by
        rw [h1] at e1; rw [h2] at e2; rw [h3] at e3; rw [h4] at e4
        simp [TweetAPIConnector.initCore, h1, h2, h3, h4,
              e1.symm, e2.symm, e3.symm, e4.symm])

/-- C8 witness: the two environments below differ only in the credential
values; construction produces the identical outcome shape, and two
connectors with different credentials log identically. -/
theorem logs_independent_of_credentials_witness :
    (TweetAPIConnector.connect ⟨⟨"k1", "s1", "t1", "u1"⟩⟩
        (.tweepyExn "boom") ⟨"hi"⟩).logs =
      (TweetAPIConnector.connect ⟨⟨"k2", "s2", "t2", "u2"⟩⟩
        (.tweepyExn "boom") ⟨"hi"⟩).logs ∧
    (TweetAPIConnector.initCore [("TWITTER_API_KEY", "a")] =
        TweetAPIConnector.initCore [("TWITTER_API_KEY", "b")] ∨
      ∃ c1 c2, TweetAPIConnector.initCore [("TWITTER_API_KEY", "a")] = .ok c1 ∧
               TweetAPIConnector.initCore [("TWITTER_API_KEY", "b")] = .ok c2) :=
  ⟨logs_independent_of_credentials.1 ⟨⟨"k1", "s1", "t1", "u1"⟩⟩
      ⟨⟨"k2", "s2", "t2", "u2"⟩⟩ (.tweepyExn "boom") ⟨"hi"⟩,
   logs_independent_of_credentials.2 [("TWITTER_API_KEY", "a")]
      [("TWITTER_API_KEY", "b")] (by decide)⟩

/-! ## Construction frame effects (`load_dotenv`) -/

/-- Helper: appending one binding at the end does not change a lookup
that already succeeds. -/
theorem getenv_append_singleton (n : String) (env : Env)
    (kv : String × String) (h : (getenv n env).isSome) :
    getenv n (env ++ [kv]) = getenv n env := by
  induction env with
  | nil => simp [getenv] at h
  | cons p rest ih =>
    obtain ⟨k, v⟩ := p
    by_cases hk : k == n
    · simp [getenv, hk]
    · simp only [getenv, hk, if_false, List.cons_append, Bool.false_eq_true] at h ⊢
      exact ih h

/-- Helper: `load_dotenv` never changes the value of a variable that is
already set in the environment. -/
theorem getenv_load_dotenv (dotfile : List (String × String)) (env : Env)
    (n : String) (h : (getenv n env).isSome) :
    getenv n (load_dotenv dotfile env) = getenv n env := by
  induction dotfile generalizing env with
  | nil => rfl
  | cons kv rest ih =>
    have hstep : load_dotenv (kv :: rest) env =
        load_dotenv rest (if (getenv kv.1 env).isSome then env else env ++ [kv]) := rfl
    rw [hstep]
    by_cases hk : (getenv kv.1 env).isSome
    · rw [if_pos hk]
      exact ih env h
    · rw [if_neg hk]
      have hsome : (getenv n (env ++ [kv])).isSome := by
        rw [getenv_append_singleton n env kv h]
        exact h
      rw [ih (env ++ [kv]) hsome]
      exact getenv_append_singleton n env kv h

/-- C9 counterexample: construction is not free of ambient side effects;
with an empty process environment and a `.env` file defining
`TWITTER_API_KEY`, `__init__`'s `load_dotenv()` call changes the process
environment. -/
theorem init_modifies_env_counterexample :
    (TweetAPIConnector.init [("TWITTER_API_KEY", "k")] []).1 ≠ ([] : Env) := by
  decide

/-- C9 (amended): besides reading the four values and the potential
validation failure, construction's only ambient effect is
`load_dotenv()`, which can only add `.env` bindings for names not yet
present — the environment after construction is exactly
`load_dotenv dotfile env`, and every variable already set keeps its
value. -/
theorem init_env_effect (dotfile : List (String × String)) (env : Env) :
    (TweetAPIConnector.init dotfile env).1 = load_dotenv dotfile env ∧
    ∀ n, (getenv n env).isSome →
      getenv n (TweetAPIConnector.init dotfile env).1 = getenv n env :=
  ⟨rfl, fun n h => getenv_load_dotenv dotfile env n h⟩

/-- C9 witness: a variable already set (`TWITTER_API_KEY = "1"`) keeps
its value through construction even when the `.env` file rebinds it. -/
theorem init_env_effect_witness :
    (TweetAPIConnector.init [("TWITTER_API_KEY", "2"), ("B", "3")]
        [("TWITTER_API_KEY", "1")]).1 =
      load_dotenv [("TWITTER_API_KEY", "2"), ("B", "3")] [("TWITTER_API_KEY", "1")] ∧
    getenv "TWITTER_API_KEY"
        (TweetAPIConnector.init [("TWITTER_API_KEY", "2"), ("B", "3")]
          [("TWITTER_API_KEY", "1")]).1 =
      getenv "TWITTER_API_KEY" [("TWITTER_API_KEY", "1")] :=
  ⟨(init_env_effect [("TWITTER_API_KEY", "2"), ("B", "3")]
      [("TWITTER_API_KEY", "1")]).1,
   (init_env_effect [("TWITTER_API_KEY", "2"), ("B", "3")]
      [("TWITTER_API_KEY", "1")]).2 "TWITTER_API_KEY" (by decide)⟩
